import Mathlib

/-!
Verification development for the Personality backend.

Shallow embedding of the core services:
- `task_service.py` (TaskService): task creation, `_calculate_next_run`,
  `update_task_status`, `execute_task` and one polling cycle of `run_scheduler`.
- `ollama_service.py` (OllamaService): `_build_system_prompt` and the
  message-list composition of `chat` / `chat_stream`.
- `memory_service.py` (MemoryService): `save_memory`, `get_memory`,
  `get_conversation_history`, `get_context_for_personality` over an explicit
  list of table rows, with SQL NULL-equality semantics made explicit.
- `personality_service.py` (PersonalityService): `create_personality` over an
  explicit set of existing persona files.

Modelling conventions:
- Wall-clock instants (`datetime.now()`, stored `next_run` ISO strings) are
  modelled as `Nat` microseconds since the local epoch; naive-`datetime`
  arithmetic is uniform, so `timedelta` addition is plain addition and the
  calendar day of `t` is `t / dayUs`.  Lexicographic comparison of the stored
  ISO strings agrees with numeric comparison of these instants.
- SQLite `REAL` importance scores are modelled as `Rat`; only order and
  equality of stored values matter to the claims.
- Python truthiness of an optional string (`if result:`) is `truthyStr`:
  false exactly on `None` and on the empty string.
- SQL `col = ?` comparison is `sqlEq`: a NULL on either side never matches.
-/

namespace Personality

/-- Python truthiness of an `Optional[str]` value: `None` and `""` are falsy. -/
def truthyStr : Option String → Bool
  | none => false
  | some s => !(s == "")

/-- SQL equality `col = ?` between two nullable strings: `NULL` compares
false against everything (including `NULL`). -/
def sqlEq : Option String → Option String → Bool
  | some a, some b => a == b
  | _, _ => false

/-! ## Time model: microseconds since the local epoch -/

def usecPerSec : Nat := 1000000

def minuteUs : Nat := 60 * usecPerSec

def hourUs : Nat := 60 * minuteUs

def dayUs : Nat := 24 * hourUs

/-! ## TaskService (`task_service.py`) -/

/-- `TaskService._calculate_next_run`.  `cron` is the external `croniter`
collaborator: `croniter(schedule, now).get_next(datetime)`, `none` when the
constructor raises (unparseable expression).  `schedule` of `None` or `""` is
falsy in Python, so both return `None`.  The `"daily"` branch is
`(now + timedelta(days=1)).replace(hour=0, minute=0, second=0)`: it zeroes the
hour, minute and second but keeps the current microsecond component. -/
def calculateNextRun (cron : String → Nat → Option Nat)
    (schedule : Option String) (now : Nat) : Option Nat :=
  match schedule with
  | none => none
  | some s =>
    if s = "" then none
    else if s = "once" then some now
    else if s = "daily" then some ((now / dayUs + 1) * dayUs + now % usecPerSec)
    else if s = "hourly" then some (now + hourUs)
    else if s = "every_5_minutes" then some (now + 5 * minuteUs)
    else
      match cron s now with
      | some t => some t
      | none => some (now + dayUs)

/-- The spec wording for the `"daily"` case: "the next local midnight strictly
after now".  Stated from the spec, for comparison with `calculateNextRun`. -/
def specNextMidnight (now : Nat) : Nat := (now / dayUs + 1) * dayUs

/-- A row of the `tasks` table. -/
structure Task where
  id : Nat
  personality_id : String
  user_id : Option String
  task_type : String
  task_data : String
  schedule : Option String
  status : String
  last_run : Option Nat
  next_run : Option Nat
  run_count : Nat
  result : Option String
  deriving DecidableEq, Repr

/-- `TaskService.update_task_status`: one SQL UPDATE on the rows with the
given id.  Always sets `status`, `last_run = CURRENT_TIMESTAMP` and
`run_count = run_count + 1`; sets `result` only when the `result` argument is
truthy; recomputes `next_run` when the task's stored `schedule` is truthy and
the new status is `"completed"` (`_calculate_next_run` yields a non-null,
hence truthy, ISO string for every truthy schedule, so the inner
`if next_run:` guard is modelled by the `some` match). -/
def updateTaskStatus (cron : String → Nat → Option Nat) (store : List Task)
    (tid : Nat) (status : String) (result : Option String) (updTime : Nat) :
    List Task :=
  store.map fun t =>
    if t.id = tid then
      { t with
        status := status
        last_run := some updTime
        run_count := t.run_count + 1
        result := if truthyStr result then result else t.result
        next_run :=
          if truthyStr t.schedule && (status == "completed") then
            match calculateNextRun cron t.schedule updTime with
            | some nr => some nr
            | none => t.next_run
          else t.next_run }
    else t

/-- A task handler, as registered in `TaskService.task_handlers`: an async
callable that either returns a result string or raises (modelled as
`Except.error` carrying `str(e)`). -/
def Handler : Type := Task → Except String String

/-- `TaskService.execute_task`: unknown task types resolve to a result string;
a raising handler is caught inside this function and its message returned as
the result string `"Task execution error: " ++ str(e)`.  Consequently this
function never raises. -/
def executeTask (handlers : String → Option Handler) (t : Task) : String :=
  match handlers t.task_type with
  | none => "Unknown task type: " ++ t.task_type
  | some h =>
    match h t with
    | .ok r => r
    | .error e => "Task execution error: " ++ e

/-- The due-task predicate of the scheduler's SELECT:
`status = 'pending' AND next_run <= now` (a NULL `next_run` never satisfies
the comparison). -/
def isDue (now : Nat) (t : Task) : Bool :=
  t.status == "pending" &&
    (match t.next_run with
     | some nr => decide (nr ≤ now)
     | none => false)

/-- `ORDER BY next_run ASC` on rows whose `next_run` is non-null. -/
def nextRunLe (a b : Task) : Prop :=
  a.next_run.getD 0 ≤ b.next_run.getD 0

instance : DecidableRel nextRunLe := fun x y =>
  inferInstanceAs (Decidable (x.next_run.getD 0 ≤ y.next_run.getD 0))

/-- The scheduler's due-task query:
`SELECT * FROM tasks WHERE status = 'pending' AND next_run <= ? ORDER BY next_run ASC`. -/
def dueTasks (store : List Task) (now : Nat) : List Task :=
  (store.filter (isDue now)).insertionSort nextRunLe

/-- One polling cycle of `TaskService.run_scheduler`: fetch the due tasks
once, then for each fetched row in order mark it `running`, run
`execute_task` on the fetched row, and mark it `completed` with the returned
result string.  `execute_task` is total (it catches handler exceptions), so
the `except` branch that would mark the task `failed` is unreachable for the
rows this loop processes.  Update timestamps are modelled with the cycle's
poll time `now`. -/
def schedulerCycle (cron : String → Nat → Option Nat)
    (handlers : String → Option Handler) (store : List Task) (now : Nat) :
    List Task :=
  (dueTasks store now).foldl
    (fun st t =>
      let st1 := updateTaskStatus cron st t.id "running" none now
      let r := executeTask handlers t
      updateTaskStatus cron st1 t.id "completed" (some r) now)
    store

/-! ## MemoryService (`memory_service.py`)

Tables are modelled as explicit lists of rows; `CURRENT_TIMESTAMP` and the
AUTOINCREMENT id of an INSERT are passed in as parameters. -/

/-- A row of the `memory_entries` table.  `importance REAL DEFAULT 1.0` is
modelled as `Rat`; `timestamp` / `last_accessed` as instants. -/
structure MemRow where
  id : Nat
  personality_id : String
  user_id : Option String
  key : String
  value : String
  importance : Rat
  timestamp : Nat
  last_accessed : Option Nat
  access_count : Nat
  deriving DecidableEq, Repr

/-- A row of the `conversations` table. -/
structure ConvRow where
  id : Nat
  personality_id : String
  user_id : Option String
  channel : Option String
  message : String
  response : String
  timestamp : Nat
  metadata : Option String
  deriving DecidableEq, Repr

/-- The WHERE clause of `save_memory`'s existence check:
`personality_id = ? AND key = ? AND user_id = ?`.  The `user_id` comparison
uses SQL equality, so a row is never found when the `user_id` parameter is
NULL. -/
def saveMatch (pid key : String) (uid : Option String) (r : MemRow) : Bool :=
  r.personality_id == pid && r.key == key && sqlEq r.user_id uid

/-- The row written by `save_memory`'s INSERT branch, with the schema
defaults (`last_accessed` NULL, `access_count` 0) and
`timestamp = CURRENT_TIMESTAMP`. -/
def saveInsertRow (pid key value : String) (importance : Rat)
    (uid : Option String) (tNow : Nat) (freshId : Nat) : MemRow :=
  { id := freshId, personality_id := pid, user_id := uid, key := key,
    value := value, importance := importance, timestamp := tNow,
    last_accessed := none, access_count := 0 }

/-- `MemoryService.save_memory`: SELECT the first row matching
(personality_id, key, user_id); if found, UPDATE its value, importance and
timestamp in place; otherwise INSERT a new row with the schema defaults
(`last_accessed` NULL, `access_count` 0). -/
def saveMemory (rows : List MemRow) (pid key value : String)
    (importance : Rat) (uid : Option String) (tNow : Nat) (freshId : Nat) :
    List MemRow :=
  match rows.find? (saveMatch pid key uid) with
  | some ex =>
    rows.map fun r =>
      if r.id = ex.id then
        { r with value := value, importance := importance, timestamp := tNow }
      else r
  | none => rows ++ [saveInsertRow pid key value importance uid tNow freshId]

/-- The WHERE clause of `get_memory`:
`personality_id = ? [AND key = ?] AND (user_id = ? OR user_id IS NULL)`.
The key filter is only added when the `key` argument is truthy. -/
def memMatch (pid : String) (key : Option String) (uid : Option String)
    (r : MemRow) : Bool :=
  r.personality_id == pid &&
    (if truthyStr key then r.key == key.getD "" else true) &&
    (sqlEq r.user_id uid || r.user_id == none)

/-- `ORDER BY importance DESC, timestamp DESC` as a total preorder on
memory rows. -/
def memLe (a b : MemRow) : Prop :=
  b.importance < a.importance ∨
    (a.importance = b.importance ∧ b.timestamp ≤ a.timestamp)

instance : DecidableRel memLe := fun x y =>
  inferInstanceAs (Decidable (_ ∨ _))

instance : IsTotal MemRow memLe :=
  ⟨fun x y => by
    unfold memLe
    rcases lt_trichotomy x.importance y.importance with h | h | h
    · exact Or.inr (Or.inl h)
    · rcases Nat.le_total y.timestamp x.timestamp with ht | ht
      · exact Or.inl (Or.inr ⟨h, ht⟩)
      · exact Or.inr (Or.inr ⟨h.symm, ht⟩)
    · exact Or.inl (Or.inl h)⟩

instance : IsTrans MemRow memLe :=
  ⟨fun x y z hxy hyz => by
    unfold memLe at *
    rcases hxy with h1 | ⟨h1, h1t⟩ <;> rcases hyz with h2 | ⟨h2, h2t⟩
    · exact Or.inl (h2.trans h1)
    · exact Or.inl (h2 ▸ h1)
    · exact Or.inl (h1 ▸ h2)
    · exact Or.inr ⟨h1.trans h2, h2t.trans h1t⟩⟩

/-- `MemoryService.get_memory`: filter, then `ORDER BY importance DESC,
timestamp DESC`. -/
def getMemory (rows : List MemRow) (pid : String) (key : Option String)
    (uid : Option String) : List MemRow :=
  (rows.filter (memMatch pid key uid)).insertionSort memLe

/-- The WHERE clause of `get_conversation_history`: filter by user if the
`user_id` argument is truthy, else by channel if truthy, else persona-wide. -/
def convMatch (pid : String) (uid : Option String) (channel : Option String)
    (r : ConvRow) : Bool :=
  r.personality_id == pid &&
    (if truthyStr uid then sqlEq r.user_id uid
     else if truthyStr channel then sqlEq r.channel channel
     else true)

/-- `ORDER BY timestamp DESC` on conversation rows. -/
def convGe (a b : ConvRow) : Prop := b.timestamp ≤ a.timestamp

instance : DecidableRel convGe := fun x y =>
  inferInstanceAs (Decidable (y.timestamp ≤ x.timestamp))

/-- `MemoryService.get_conversation_history`: filter, `ORDER BY timestamp
DESC`, `LIMIT limit`. -/
def getConversationHistory (rows : List ConvRow) (pid : String)
    (uid : Option String) (limit : Nat) (channel : Option String) :
    List ConvRow :=
  ((rows.filter (convMatch pid uid channel)).insertionSort convGe).take limit

/-- The key of the Python re-sort in `get_context_for_personality`:
`memories.sort(key=lambda x: (importance, access_count), reverse=True)`. -/
def pyMemGe (a b : MemRow) : Prop :=
  b.importance < a.importance ∨
    (a.importance = b.importance ∧ b.access_count ≤ a.access_count)

instance : DecidableRel pyMemGe := fun x y =>
  inferInstanceAs (Decidable (_ ∨ _))

/-- The aggregate returned by `get_context_for_personality`. -/
structure ContextResult where
  conversations : List ConvRow
  memories : List MemRow
  total_conversations : Nat
  total_memories : Nat
  deriving DecidableEq, Repr

/-- `MemoryService.get_context_for_personality`: retrieves the history
already LIMITed to `max_conversations` and the (un-LIMITed) memories,
re-sorts the memories by (importance, access_count) descending, and reports
`len(conversations)` / `len(memories)` of those two lists as the totals. -/
def getContextForPersonality (convRows : List ConvRow) (memRows : List MemRow)
    (pid : String) (uid : Option String) (maxConversations : Nat)
    (maxMemories : Nat) : ContextResult :=
  let conversations := getConversationHistory convRows pid uid maxConversations none
  let memories := getMemory memRows pid none uid
  let sortedMemories := memories.insertionSort pyMemGe
  { conversations := conversations.take maxConversations
    memories := sortedMemories.take maxMemories
    total_conversations := conversations.length
    total_memories := memories.length }

/-! ## PersonalityService (`personality_service.py`) -/

/-- The protected identifiers hard-coded in `create_personality` /
`delete_personality`. -/
def protectedIds : List String :=
  ["default", "developer", "creative", "analytical", "casual",
   "asian", "middle_eastern", "european", "latin_american", "african"]

/-- Python `str.strip()`: remove leading and trailing whitespace. -/
def pyStrip (s : String) : String :=
  String.mk (((s.data.dropWhile Char.isWhitespace).reverse.dropWhile
    Char.isWhitespace).reverse)

/-- Python `str.lower()` (character-wise lowering). -/
def pyLower (s : String) : String :=
  String.mk (s.data.map Char.toLower)

/-- Python `str.replace(" ", "_")`: the pattern is a single character, so the
replacement is character-wise. -/
def pyReplaceSpace (s : String) : String :=
  String.mk (s.data.map fun c => if c = ' ' then '_' else c)

/-- The first normalization step of `create_personality`:
`personality_data.get("id", "").strip().lower().replace(" ", "_")`. -/
def preNormalizeId (s : String) : String :=
  pyReplaceSpace (pyLower (pyStrip s))

/-- The second normalization step: keep only alphanumeric characters,
underscores and hyphens (`"".join(c for c in id if c.isalnum() or c in
('_', '-'))`). -/
def deriveId (s : String) : String :=
  String.mk ((preNormalizeId s).data.filter fun c =>
    c.isAlphanum || c == '_' || c == '-')

/-- `PersonalityService.create_personality`, with the persona directory
modelled as the list of file stems present.  Returns the stored id and the
new directory contents, or the message of the `ValueError` raised.  The
emptiness check applies to the id before the character strip; the
protected-id conflict check refuses only when the file already exists;
otherwise the file is written (over an existing non-protected file if
present). -/
def createPersonality (existingFiles : List String) (dataId : String) :
    Except String (String × List String) :=
  let pid1 := preNormalizeId dataId
  if pid1 = "" then .error "Personality ID is required"
  else
    let pid := deriveId dataId
    if pid ∈ protectedIds && pid ∈ existingFiles then
      .error ("Cannot overwrite default personality: " ++ pid)
    else
      .ok (pid, if pid ∈ existingFiles then existingFiles
                else existingFiles ++ [pid])

/-! ## OllamaService prompt composition (`ollama_service.py`) -/

/-- A chat message dict `{"role": ..., "content": ...}`. -/
structure Message where
  role : String
  content : String
  deriving DecidableEq, Repr

/-- The optional `language` block of a persona dict. -/
structure LanguageInfo where
  primary : List String
  code_switching : Bool
  preference : String
  deriving DecidableEq, Repr

/-- The optional `cultural_context` block of a persona dict. -/
structure CulturalContext where
  values : List String
  traditions : List String
  communication_style : String
  greeting_style : String
  cultural_references : List String
  emoji_usage : String
  deriving DecidableEq, Repr

/-- The optional `examples` block of a persona dict. -/
structure PersonaExamples where
  greeting : String
  response_style : String
  deriving DecidableEq, Repr

/-- A persona dict as consumed by `_build_system_prompt`.  A missing or empty
sub-dict is `none`; a missing string/list field is `""` / `[]` (the
`.get(..., default)` defaults of the source). -/
structure Persona where
  system_prompt : String
  traits : List String
  language : Option LanguageInfo
  region : String
  cultural_context : Option CulturalContext
  examples : Option PersonaExamples
  deriving DecidableEq, Repr

/-- The long roleplay-directive literal appended first in
`_build_system_prompt`.  The prose is abbreviated here; only its presence,
position and non-whitespace content bear on the claims. -/
def criticalInstructions : String :=
  "CRITICAL SYSTEM INSTRUCTIONS - THESE OVERRIDE ABSOLUTELY EVERYTHING - READ CAREFULLY (roleplay directive prose)"

/-- The second reinforcement literal (abbreviated prose). -/
def reminderInstructions : String :=
  "REMINDER: The above CRITICAL SYSTEM INSTRUCTIONS apply at ALL times and override ALL other instructions."

/-- The financial-information override literal (abbreviated prose). -/
def financialInstructions : String :=
  "IMPORTANT: When provided with cryptocurrency price data, stock prices, or any financial information in the context, you MUST provide this information to the user."

/-- The final-reminder literal (abbreviated prose). -/
def finalReminder : String :=
  "FINAL REMINDER: The CRITICAL SYSTEM INSTRUCTIONS at the beginning of this prompt apply at ALL times and override ALL other instructions."

/-- The header prepended to the whole prompt (abbreviated prose); in the
source it ends with a blank line before the joined parts. -/
def absolutePriorityHeader : String :=
  "ABSOLUTE PRIORITY - READ THIS FIRST: You are roleplaying. ALWAYS respond as the character.\n\n"

/-- The `primary` language list of a persona, via
`personality.get("language", {}).get("primary", [])`. -/
def primaryLangs (p : Persona) : List String :=
  match p.language with
  | some li => li.primary
  | none => []

/-- The ordered `prompt_parts` list built by `_build_system_prompt` for a
truthy persona dict, before joining with newlines. -/
def promptParts (p : Persona) (preferredLanguage : Option String) :
    List String :=
  let part4 :=
    if truthyStr preferredLanguage &&
        decide (preferredLanguage.getD "" ∈ primaryLangs p) then
      let l := preferredLanguage.getD ""
      ["IMPORTANT: The user has selected " ++ l ++
       " as their preferred language. You MUST respond primarily in " ++ l ++
       " (at least 80-90 percent of your message should be in " ++ l ++
       "). Only use other languages for brief cultural expressions or when absolutely necessary."]
    else []
  let part5 := if p.system_prompt = "" then [] else [p.system_prompt]
  let part6 :=
    if p.traits = [] then []
    else ["Personality traits: " ++ String.intercalate ", " p.traits]
  let part7 :=
    match p.language with
    | none => []
    | some li =>
      if li.primary = [] then []
      else
        let langText :=
          if truthyStr preferredLanguage &&
              decide (preferredLanguage.getD "" ∈ li.primary) then
            let l := preferredLanguage.getD ""
            "CRITICAL LANGUAGE INSTRUCTION: You MUST speak PRIMARILY or EXCLUSIVELY in " ++
              l ++ ". At least 80-90 percent of your responses should be in " ++ l ++
              ". Only use other languages (" ++
              String.intercalate ", " (li.primary.filter (fun x => !(x == l))) ++
              ") for brief phrases, cultural expressions, or when absolutely necessary for clarity. Your default and primary mode of communication is " ++
              l ++ "."
          else
            "Languages: You can communicate in " ++
              String.intercalate ", " li.primary ++
              (if li.code_switching then
                ". You naturally code-switch between languages when appropriate."
               else "")
        let langText2 :=
          if !truthyStr preferredLanguage && !(li.preference == "") then
            langText ++ " " ++ li.preference
          else langText
        [langText2]
  let part8 := if p.region = "" then [] else ["Region: " ++ p.region]
  let part9 :=
    match p.cultural_context with
    | none => []
    | some cc =>
      let culturalParts :=
        (if cc.values = [] then []
         else ["Core values: " ++ String.intercalate ", " cc.values]) ++
        (if cc.traditions = [] then []
         else ["Cultural traditions: " ++ String.intercalate ", " cc.traditions]) ++
        (if cc.communication_style = "" then []
         else ["Communication style: " ++ cc.communication_style]) ++
        (if cc.greeting_style = "" then []
         else ["Greeting style: " ++ cc.greeting_style]) ++
        (if cc.cultural_references = [] then []
         else ["You naturally reference: " ++
               String.intercalate ", " cc.cultural_references]) ++
        (if cc.emoji_usage = "" then []
         else ["Emoji usage: " ++ cc.emoji_usage])
      if culturalParts = [] then [] else "\nCultural Context:" :: culturalParts
  let part10 :=
    match p.examples with
    | none => []
    | some ex =>
      let exampleParts :=
        (if ex.greeting = "" then []
         else ["Example greeting: " ++ ex.greeting]) ++
        (if ex.response_style = "" then []
         else ["Example response style: " ++ ex.response_style])
      if exampleParts = [] then [] else "\nExamples:" :: exampleParts
  [criticalInstructions, reminderInstructions, financialInstructions] ++
    part4 ++ part5 ++ part6 ++ part7 ++ part8 ++ part9 ++ part10 ++
    [finalReminder]

/-- Python `"\n".join(parts)`. -/
def joinLines : List String → String
  | [] => ""
  | [a] => a
  | a :: rest => a ++ "\n" ++ joinLines rest

/-- `OllamaService._build_system_prompt`: `None` for a falsy persona dict;
otherwise join the parts with newlines, prepend the absolute-priority header
when the joined string is truthy, and return the result unless it is all
whitespace (`final_prompt.strip()` falsy). -/
def buildSystemPrompt (personality : Option Persona)
    (preferredLanguage : Option String) : Option String :=
  match personality with
  | none => none
  | some p =>
    let finalPrompt := joinLines (promptParts p preferredLanguage)
    let finalPrompt2 :=
      if finalPrompt == "" then finalPrompt
      else absolutePriorityHeader ++ finalPrompt
    if finalPrompt2.data.any (fun c => !c.isWhitespace) then some finalPrompt2
    else none

/-- The message-list composition shared by `OllamaService.chat` and
`OllamaService.chat_stream`: the built system prompt first when present, then
the supplied context with every system-role entry filtered out, then the new
user message. -/
def composeMessages (message : String) (personality : Option Persona)
    (context : Option (List Message)) (preferredLanguage : Option String) :
    List Message :=
  let sysMsgs :=
    match buildSystemPrompt personality preferredLanguage with
    | some s => [{ role := "system", content := s : Message }]
    | none => []
  let ctxMsgs :=
    match context with
    | some ctx => ctx.filter fun m => !(m.role == "system")
    | none => []
  sysMsgs ++ ctxMsgs ++ [{ role := "user", content := message }]

/-! ## Concrete fixtures used by counterexamples and witnesses -/

/-- A cron collaborator that fails to parse every expression (the
`except` fallback path of `_calculate_next_run`). -/
def cronNone : String → Nat → Option Nat := fun _ _ => none

/-- A pending, due task whose registered handler raises. -/
def tBoom : Task :=
  { id := 1, personality_id := "default", user_id := none,
    task_type := "boom", task_data := "{}", schedule := none,
    status := "pending", last_run := none, next_run := some 0,
    run_count := 0, result := none }

/-- A pending, due task whose registered handler succeeds. -/
def tTick : Task :=
  { id := 2, personality_id := "default", user_id := none,
    task_type := "tick", task_data := "{}", schedule := none,
    status := "pending", last_run := none, next_run := some 1,
    run_count := 0, result := none }

/-- A pending, due, hourly-recurring task. -/
def tRec : Task :=
  { id := 3, personality_id := "default", user_id := none,
    task_type := "tick", task_data := "{}", schedule := some "hourly",
    status := "pending", last_run := none, next_run := some 0,
    run_count := 0, result := none }

/-- A handler registry: `"boom"` raises `kaput`, `"tick"` returns `done`. -/
def fixtureHandlers : String → Option Handler := fun ty =>
  if ty = "boom" then some (fun _ => .error "kaput")
  else if ty = "tick" then some (fun _ => .ok "done")
  else none

/-! ## Helper lemmas -/

lemma truthyStr_some_of_ne {s : String} (h : s ≠ "") :
    truthyStr (some s) = true := by
  simp [truthyStr, h]

lemma taskError_beq_empty_eq_false (e : String) :
    (("Task execution error: " ++ e) == "") = false := by
  rw [beq_eq_false_iff_ne]
  intro hcontra
  have hdata : ("Task execution error: ").data ++ e.data = [] :=
    String.data_append "Task execution error: " e ▸ congrArg String.data hcontra
  exact absurd (List.append_eq_nil.mp hdata).1 (by decide)

/-- `_calculate_next_run` yields a value for every truthy schedule. -/
lemma calculateNextRun_isSome (cron : String → Nat → Option Nat)
    (s : Option String) (now : Nat) (h : truthyStr s = true) :
    ∃ v, calculateNextRun cron s now = some v := by
  rcases s with _ | str
  · simp [truthyStr] at h
  · have hne : str ≠ "" := by simpa [truthyStr] using h
    simp only [calculateNextRun, if_neg hne]
    split_ifs
    · exact ⟨_, rfl⟩
    · exact ⟨_, rfl⟩
    · exact ⟨_, rfl⟩
    · exact ⟨_, rfl⟩
    · cases cron str now
      · exact ⟨_, rfl⟩
      · exact ⟨_, rfl⟩

/-! ## Claim theorems -/

/-- C1 (counterexample): on the code, a due task whose handler raises ends
the dispatch with status `"completed"` — not `"failed"` — and with result
`"Task execution error: kaput"` rather than the bare exception message
`"kaput"`: `execute_task` catches the exception and returns the wrapped
message as an ordinary result. -/
theorem c1_counterexample :
    (schedulerCycle cronNone fixtureHandlers [tBoom] 10).map
        (fun t => (t.status, t.result)) =
      [("completed", some "Task execution error: kaput")] ∧
    (schedulerCycle cronNone fixtureHandlers [tBoom] 10).all
        (fun t => !(t.status == "failed")) = true := by
  decide

/-- C1 (amended): for every registered handler that raises on a due task,
one scheduler dispatch ends with the task `"completed"` and its stored
result equal to `"Task execution error: "` followed by the exception
message; the run loop proceeds to the next due task, which is dispatched
normally. -/
theorem c1_handler_error_completed
    (cron : String → Nat → Option Nat) (handlers : String → Option Handler)
    (t1 t2 : Task) (h1 h2 : Handler) (e r2 : String) (now n1 n2 : Nat)
    (hs1 : t1.status = "pending") (hn1 : t1.next_run = some n1)
    (hd1 : n1 ≤ now)
    (hs2 : t2.status = "pending") (hn2 : t2.next_run = some n2)
    (hd2 : n2 ≤ now)
    (hord : n1 ≤ n2) (hid : t1.id ≠ t2.id)
    (hh1 : handlers t1.task_type = some h1) (he : h1 t1 = .error e)
    (hh2 : handlers t2.task_type = some h2) (hr : h2 t2 = .ok r2)
    (hr2 : r2 ≠ "") :
    ∃ u1 u2, schedulerCycle cron handlers [t1, t2] now = [u1, u2] ∧
      u1.id = t1.id ∧ u1.status = "completed" ∧
      u1.result = some ("Task execution error: " ++ e) ∧
      u2.id = t2.id ∧ u2.status = "completed" ∧ u2.result = some r2 := by
  have hid2 : t2.id ≠ t1.id := Ne.symm hid
  have hte : (("Task execution error: " ++ e) == "") = false :=
    taskError_beq_empty_eq_false e
  have hr2b : (r2 == "") = false := beq_eq_false_iff_ne.mpr hr2
  have hfilter : List.filter (isDue now) [t1, t2] = [t1, t2] := by
    simp [isDue, hs1, hs2, hn1, hn2, hd1, hd2]
  have hle : nextRunLe t1 t2 := by
    simp only [nextRunLe, hn1, hn2, Option.getD_some]
    exact hord
  have hsort : ([t1, t2] : List Task).insertionSort nextRunLe = [t1, t2] := by
    simp [List.insertionSort, List.orderedInsert, if_pos hle]
  rw [schedulerCycle, dueTasks, hfilter, hsort]
  simp [List.foldl, executeTask, hh1, hh2, he, hr, updateTaskStatus,
    truthyStr, hte, hr2b, hid, hid2]
  exact ⟨_, _, ⟨rfl, rfl⟩, rfl, rfl, rfl, rfl, rfl, rfl⟩

/-- C1 (witness): the amended behavior at a concrete two-task store whose
first task's handler raises `kaput` and whose second task's handler
returns `done`. -/
theorem c1_witness :
    ∃ u1 u2, schedulerCycle cronNone fixtureHandlers [tBoom, tTick] 10 =
        [u1, u2] ∧
      u1.id = tBoom.id ∧ u1.status = "completed" ∧
      u1.result = some ("Task execution error: " ++ "kaput") ∧
      u2.id = tTick.id ∧ u2.status = "completed" ∧ u2.result = some "done" :=
  c1_handler_error_completed cronNone fixtureHandlers tBoom tTick
    (fun _ => .error "kaput") (fun _ => .ok "done") "kaput" "done" 10 0 1
    rfl rfl (by decide) rfl rfl (by decide) (by decide) (by decide)
    rfl rfl rfl rfl (by decide)

/-- C2 (counterexample): on the code, completing a recurring task does store
a recomputed `next_run`, but the task is never selected again by the
due-task query, because the query filters on `status = 'pending'` and the
task's status is `"completed"`. -/
theorem c2_counterexample :
    (schedulerCycle cronNone fixtureHandlers [tRec] 10).map
        (fun t => (t.status, t.next_run)) =
      [("completed", some (hourUs + 10))] ∧
    dueTasks (schedulerCycle cronNone fixtureHandlers [tRec] 10)
        (hourUs + 1000) = [] := by
  decide

/-- C2 (amended): for every task with a truthy recurrence rule, the update
that marks it `"completed"` also stores a recomputed `next_run` in the same
update, but the scheduler's due-task query never selects the task again —
whatever the polling time — because the query restricts to tasks whose
status is `"pending"`. -/
theorem c2_rearm_not_reselected (cron : String → Nat → Option Nat)
    (store : List Task) (tid : Nat) (res : Option String) (now : Nat) :
    (∀ t ∈ store, t.id = tid → truthyStr t.schedule = true →
      ∃ u ∈ updateTaskStatus cron store tid "completed" res now,
        u.id = tid ∧ u.status = "completed" ∧
        u.next_run = calculateNextRun cron t.schedule now ∧
        u.schedule = t.schedule) ∧
    (∀ t ∈ updateTaskStatus cron store tid "completed" res now,
      t.status ≠ "pending" →
      ∀ now2, t ∉ dueTasks (updateTaskStatus cron store tid "completed" res now) now2) := by
  constructor
  · intro t ht htid hsched
    obtain ⟨v, hv⟩ := calculateNextRun_isSome cron t.schedule now hsched
    refine ⟨_, List.mem_map_of_mem _ ht, ?_⟩
    simp [if_pos htid, hsched, hv, htid]
  · intro t _ hstat now2 hmem
    have hmem2 : t ∈ (updateTaskStatus cron store tid "completed" res now).filter
        (isDue now2) := by
      simpa [dueTasks] using hmem
    have := List.of_mem_filter hmem2
    simp only [isDue, Bool.and_eq_true, beq_iff_eq] at this
    exact hstat this.1

/-- C2 (witness): the amended behavior at a concrete one-task store holding
a due hourly task. -/
theorem c2_witness :
    (∃ u ∈ updateTaskStatus cronNone [tRec] 3 "completed" (some "done") 10,
        u.id = 3 ∧ u.status = "completed" ∧
        u.next_run = calculateNextRun cronNone tRec.schedule 10 ∧
        u.schedule = tRec.schedule) ∧
    ({ id := 3, personality_id := "default", user_id := none,
       task_type := "tick", task_data := "{}", schedule := some "hourly",
       status := "completed", last_run := some 10,
       next_run := some (10 + hourUs), run_count := 1,
       result := some "done" } : Task) ∉
      dueTasks (updateTaskStatus cronNone [tRec] 3 "completed" (some "done") 10)
        (hourUs + 1000) := by
  constructor
  · exact (c2_rearm_not_reselected cronNone [tRec] 3 (some "done") 10).1 tRec
      (by simp) rfl (by decide)
  · exact (c2_rearm_not_reselected cronNone [tRec] 3 (some "done") 10).2 _
      (by decide) (by decide) (hourUs + 1000)

/-- C10: every call to `update_task_status` — the `"running"` transition
included — increments the task's `run_count` by one and stamps `last_run`,
so one scheduler dispatch of a due task (marked `running`, then
`completed`) increases `run_count` by two; and an update whose result
argument is the empty string (or absent) leaves the stored result
unchanged. -/
theorem c10_run_count_increment :
    (∀ (cron : String → Nat → Option Nat) (store : List Task) (tid : Nat)
        (status : String) (res : Option String) (updTime : Nat),
      ∀ t ∈ store, t.id = tid →
        ∃ u ∈ updateTaskStatus cron store tid status res updTime,
          u.run_count = t.run_count + 1 ∧ u.last_run = some updTime ∧
          u.status = status ∧
          ((res = none ∨ res = some "") → u.result = t.result)) ∧
    (∀ (cron : String → Nat → Option Nat)
        (handlers : String → Option Handler) (t : Task) (now n : Nat),
      t.status = "pending" → t.next_run = some n → n ≤ now →
        ∃ u, schedulerCycle cron handlers [t] now = [u] ∧
          u.run_count = t.run_count + 2 ∧ u.status = "completed") := by
  constructor
  · intro cron store tid status res updTime t ht htid
    refine ⟨_, List.mem_map_of_mem _ ht, ?_⟩
    simp only [if_pos htid]
    refine ⟨trivial, trivial, trivial, ?_⟩
    rintro (rfl | rfl) <;> simp [truthyStr]
  · intro cron handlers t now n hstat hnr hnow
    have hfilter : List.filter (isDue now) [t] = [t] := by
      simp [isDue, hstat, hnr, hnow]
    have hsort : ([t] : List Task).insertionSort nextRunLe = [t] := by
      simp [List.insertionSort, List.orderedInsert]
    rw [schedulerCycle, dueTasks, hfilter, hsort]
    simp [List.foldl, updateTaskStatus, truthyStr]

/-- C10 (witness): the increments at a concrete store: an update to
`"running"` with an empty-string result bumps `run_count` once and keeps
the stored result; one full dispatch bumps it twice. -/
theorem c10_witness :
    (∃ u ∈ updateTaskStatus cronNone [tBoom] 1 "running" (some "") 5,
        u.run_count = tBoom.run_count + 1 ∧ u.last_run = some 5 ∧
        u.status = "running" ∧ u.result = tBoom.result) ∧
    (∃ u, schedulerCycle cronNone fixtureHandlers [tBoom] 10 = [u] ∧
        u.run_count = tBoom.run_count + 2 ∧ u.status = "completed") := by
  constructor
  · obtain ⟨u, hmem, h1, h2, h3, h4⟩ :=
      c10_run_count_increment.1 cronNone [tBoom] 1 "running" (some "") 5 tBoom
        (by simp) rfl
    exact ⟨u, hmem, h1, h2, h3, h4 (Or.inr rfl)⟩
  · exact c10_run_count_increment.2 cronNone fixtureHandlers tBoom 10 0 rfl rfl
      (by decide)

/-- C7 (counterexample): on the code, `"daily"` at an instant with a
non-zero microsecond component does not yield the next local midnight: the
`replace` zeroes the hour, minute and second but keeps the microsecond, so
half a second past the epoch midnight reschedules to half a second past the
next midnight. -/
theorem c7_counterexample :
    calculateNextRun cronNone (some "daily") 500000 =
        some (dayUs + 500000) ∧
    specNextMidnight 500000 = dayUs ∧ dayUs + 500000 ≠ dayUs := by
  decide

/-- C7 (amended): the initial `next_run` computed from a recurrence is:
`"once"` → now; `"daily"` → the next local midnight strictly after now plus
now's microsecond component (exactly the next midnight when now lies on a
whole second) — in every case an instant strictly after now; `"hourly"` →
now plus one hour; `"every_5_minutes"` → now plus five minutes; any other
non-empty string → the cron collaborator's next occurrence, or now plus one
day when unparseable; a null (or empty) recurrence → null. -/
theorem c7_next_run_rules (cron : String → Nat → Option Nat) (now : Nat) :
    calculateNextRun cron none now = none ∧
    calculateNextRun cron (some "") now = none ∧
    calculateNextRun cron (some "once") now = some now ∧
    calculateNextRun cron (some "daily") now =
      some (specNextMidnight now + now % usecPerSec) ∧
    (now % usecPerSec = 0 →
      calculateNextRun cron (some "daily") now = some (specNextMidnight now)) ∧
    now < specNextMidnight now + now % usecPerSec ∧
    calculateNextRun cron (some "hourly") now = some (now + hourUs) ∧
    calculateNextRun cron (some "every_5_minutes") now =
      some (now + 5 * minuteUs) ∧
    (∀ s, s ≠ "" →
      s ∉ (["once", "daily", "hourly", "every_5_minutes"] : List String) →
      calculateNextRun cron (some s) now = some ((cron s now).getD (now + dayUs))) := by
  refine ⟨rfl, by simp [calculateNextRun], by simp [calculateNextRun],
    ?_, ?_, ?_, ?_, ?_, ?_⟩
  · simp [calculateNextRun, specNextMidnight]
  · intro h
    simp [calculateNextRun, specNextMidnight, h]
  · simp only [specNextMidnight, dayUs, hourUs, minuteUs, usecPerSec]
    omega
  · simp [calculateNextRun]
  · simp [calculateNextRun]
  · intro s hne hnotin
    simp only [List.mem_cons, not_or] at hnotin
    obtain ⟨h1, h2, h3, h4, -⟩ := hnotin
    simp only [calculateNextRun, if_neg hne, if_neg h1, if_neg h2, if_neg h3,
      if_neg h4]
    cases cron s now <;> simp

/-- C7 (witness): the amended rules applied at concrete instants and an
unparseable cron expression. -/
theorem c7_witness :
    calculateNextRun cronNone (some "daily") 0 = some (specNextMidnight 0) ∧
    calculateNextRun cronNone (some "not a cron") 7 = some (7 + dayUs) := by
  constructor
  · exact (c7_next_run_rules cronNone 0).2.2.2.2.1 (by decide)
  · have h := (c7_next_run_rules cronNone 7).2.2.2.2.2.2.2.2 "not a cron"
      (by decide) (by decide)
    simpa [cronNone] using h

/-! ## Memory-service claims -/

lemma eq_of_sqlEq {a b : Option String} (h : sqlEq a b = true) : a = b := by
  cases a <;> cases b <;> simp_all [sqlEq]

/-- A persona-scoped, user-unscoped fact. -/
def memA : MemRow :=
  { id := 1, personality_id := "p", user_id := none, key := "k",
    value := "v", importance := 2, timestamp := 5, last_accessed := none,
    access_count := 0 }

/-- A fact scoped to a different user. -/
def memB : MemRow :=
  { id := 2, personality_id := "p", user_id := some "other", key := "k",
    value := "w", importance := 1, timestamp := 6, last_accessed := none,
    access_count := 0 }

/-- C9: a memory read never returns a fact whose `user_id` is a non-null
value different from the requested user; it does return every matching fact
whose `user_id` is null; the result is ordered by importance descending then
timestamp descending; and when a (truthy) key is given every returned fact
has that key. -/
theorem c9_memory_scope_and_order (rows : List MemRow) (pid : String)
    (key : Option String) (uid : Option String) :
    (∀ r ∈ getMemory rows pid key uid, r.user_id = none ∨ r.user_id = uid) ∧
    (∀ r ∈ rows, r.personality_id = pid → r.user_id = none →
      (truthyStr key = true → r.key = key.getD "") →
      r ∈ getMemory rows pid key uid) ∧
    List.Sorted memLe (getMemory rows pid key uid) ∧
    (truthyStr key = true → ∀ r ∈ getMemory rows pid key uid,
      r.key = key.getD "") := by
  refine ⟨?_, ?_, ?_, ?_⟩
  · intro r hr
    simp only [getMemory, List.mem_insertionSort] at hr
    have hm := List.of_mem_filter hr
    simp only [memMatch, Bool.and_eq_true, Bool.or_eq_true] at hm
    rcases hm.2 with h | h
    · exact Or.inr (eq_of_sqlEq h)
    · exact Or.inl (by simpa using h)
  · intro r hr hpid huid hkey
    simp only [getMemory, List.mem_insertionSort, List.mem_filter]
    refine ⟨hr, ?_⟩
    cases htk : truthyStr key
    · simp [memMatch, hpid, huid, htk]
    · simp [memMatch, hpid, huid, htk, hkey htk]
  · simp only [getMemory]
    exact List.sorted_insertionSort memLe _
  · intro htk r hr
    simp only [getMemory, List.mem_insertionSort] at hr
    have hm := List.of_mem_filter hr
    simp only [memMatch, htk, if_true, Bool.and_eq_true, beq_iff_eq] at hm
    exact hm.1.2

/-- C9 (witness): the unscoped fact `memA` is returned for a read scoped to
user `"u"` with key `"k"`. -/
theorem c9_witness :
    memA ∈ getMemory [memA, memB] "p" (some "k") (some "u") :=
  (c9_memory_scope_and_order [memA, memB] "p" (some "k") (some "u")).2.1 memA
    (by simp) rfl rfl (fun _ => rfl)

/-- C5 (counterexample): on the code, two successive `save_memory` calls
with the same (persona, key) and a null user insert two rows instead of
updating in place — the existence check compares `user_id = NULL`, which is
never true in SQL — so the claim fails at `user = null`. -/
theorem c5_counterexample :
    ((saveMemory (saveMemory [] "p" "k" "v1" 1 none 10 1)
        "p" "k" "v2" 1 none 20 2).filter
      (fun r => r.personality_id == "p" && r.key == "k")).length = 2 ∧
    ((saveMemory (saveMemory [] "p" "k" "v1" 1 none 10 1)
        "p" "k" "v2" 1 none 20 2).map (fun r => r.value)) = ["v1", "v2"] := by
  decide

/-- C5 (amended): for a NON-NULL user, two successive `save_memory` calls
with the same (persona, key, user) and different values leave exactly one
row for that scope, holding the second call's value, importance and
timestamp with the insert-time access count (not incremented); with a null
user the second call inserts a second row instead (see the
counterexample). -/
theorem c5_upsert_nonnull_user (rows : List MemRow)
    (pid key v1 v2 : String) (imp1 imp2 : Rat) (u : String)
    (t1 t2 fid fid2 : Nat)
    (hnomatch : ∀ r ∈ rows, saveMatch pid key (some u) r = false)
    (hfresh : ∀ r ∈ rows, r.id ≠ fid) :
    saveMemory (saveMemory rows pid key v1 imp1 (some u) t1 fid)
        pid key v2 imp2 (some u) t2 fid2 =
      rows ++ [saveInsertRow pid key v2 imp2 (some u) t2 fid] ∧
    ((saveMemory (saveMemory rows pid key v1 imp1 (some u) t1 fid)
        pid key v2 imp2 (some u) t2 fid2).filter
      (saveMatch pid key (some u))).length = 1 := by
  have hrow1 : saveMatch pid key (some u)
      (saveInsertRow pid key v1 imp1 (some u) t1 fid) = true := by
    simp [saveMatch, saveInsertRow, sqlEq]
  have hfind1 : rows.find? (saveMatch pid key (some u)) = none :=
    List.find?_eq_none.mpr (fun x hx => by simp [hnomatch x hx])
  have hs1 : saveMemory rows pid key v1 imp1 (some u) t1 fid =
      rows ++ [saveInsertRow pid key v1 imp1 (some u) t1 fid] := by
    simp [saveMemory, hfind1]
  have hfind2 :
      (rows ++ [saveInsertRow pid key v1 imp1 (some u) t1 fid]).find?
        (saveMatch pid key (some u)) =
      some (saveInsertRow pid key v1 imp1 (some u) t1 fid) := by
    rw [List.find?_append, hfind1]
    simp [hrow1]
  have hmain : saveMemory (saveMemory rows pid key v1 imp1 (some u) t1 fid)
      pid key v2 imp2 (some u) t2 fid2 =
      rows ++ [saveInsertRow pid key v2 imp2 (some u) t2 fid] := by
    rw [hs1]
    unfold saveMemory
    rw [hfind2]
    simp only [List.map_append]
    congr 1
    · conv_rhs => rw [← List.map_id rows]
      exact List.map_congr_left fun r hr => by
        simp [saveInsertRow, hfresh r hr]
    · simp [saveInsertRow]
  refine ⟨hmain, ?_⟩
  rw [hmain, List.filter_append]
  have hfilter0 : rows.filter (saveMatch pid key (some u)) = [] :=
    List.filter_eq_nil_iff.mpr (fun x hx => by simp [hnomatch x hx])
  simp [hfilter0, saveMatch, saveInsertRow, sqlEq]

/-- C5 (witness): the amended upsert at a concrete empty store and user
`"u"`. -/
theorem c5_witness :
    saveMemory (saveMemory [] "p" "k" "v1" 1 (some "u") 10 7)
        "p" "k" "v2" 2 (some "u") 20 8 =
      [saveInsertRow "p" "k" "v2" 2 (some "u") 20 7] ∧
    ((saveMemory (saveMemory [] "p" "k" "v1" 1 (some "u") 10 7)
        "p" "k" "v2" 2 (some "u") 20 8).filter
      (saveMatch "p" "k" (some "u"))).length = 1 := by
  have h := c5_upsert_nonnull_user [] "p" "k" "v1" "v2" 1 2 "u" 10 20 7 8
    (fun r hr => absurd hr (List.not_mem_nil r))
    (fun r hr => absurd hr (List.not_mem_nil r))
  simpa using h

/-- A stored turn for user `"u"`. -/
def convA : ConvRow :=
  { id := 1, personality_id := "p", user_id := some "u", channel := none,
    message := "m1", response := "r1", timestamp := 1, metadata := none }

/-- A second stored turn for user `"u"`. -/
def convB : ConvRow :=
  { id := 2, personality_id := "p", user_id := some "u", channel := none,
    message := "m2", response := "r2", timestamp := 2, metadata := none }

/-- C8 (counterexample): on the code, with two stored turns in scope and
`maxTurns = 1`, the aggregate reports `total_conversations = 1` — the
length of the already-LIMITed retrieval — while the untruncated stored
count is 2: the turn total is not the untruncated count the claim
states. -/
theorem c8_counterexample :
    (getContextForPersonality [convA, convB] [] "p" (some "u") 1
      10).total_conversations = 1 ∧
    ([convA, convB].filter (convMatch "p" (some "u") none)).length = 2 := by
  decide

/-- C8 (amended): the aggregate returns turns truncated to `maxTurns` and
facts truncated to `maxFacts`; `totalFacts` reports the untruncated count
of stored facts in scope, but `totalTurns` reports the length of the
already-truncated turn retrieval, i.e. the untruncated stored-turn count
capped at `maxTurns`. -/
theorem c8_context_truncation (convRows : List ConvRow)
    (memRows : List MemRow) (pid : String) (uid : Option String)
    (maxC maxM : Nat) :
    (getContextForPersonality convRows memRows pid uid maxC
      maxM).conversations.length ≤ maxC ∧
    (getContextForPersonality convRows memRows pid uid maxC
      maxM).memories.length ≤ maxM ∧
    (getContextForPersonality convRows memRows pid uid maxC
      maxM).total_memories = (memRows.filter (memMatch pid none uid)).length ∧
    (getContextForPersonality convRows memRows pid uid maxC
      maxM).total_conversations =
      min maxC (convRows.filter (convMatch pid uid none)).length := by
  refine ⟨?_, ?_, ?_, ?_⟩
  · simp [getContextForPersonality, getConversationHistory]
  · simp [getContextForPersonality]
  · simp [getContextForPersonality, getMemory]
  · simp [getContextForPersonality, getConversationHistory]

/-! ## Persona-store claims -/

/-- C6 (counterexample): on the code, an id whose characters are all
stripped by the alphanumeric filter — e.g. `"!!!"` — passes the emptiness
validation (which runs before the strip) and `create` succeeds with an
empty stored id, instead of failing with a validation error as the claim
states. -/
theorem c6_counterexample :
    deriveId "!!!" = "" ∧
    createPersonality [] "!!!" = .ok ("", [""]) :=
  ⟨by decide, rfl⟩

/-- C6 (amended): `create` fails with the validation error exactly when the
id is empty after trimming, lower-casing and space-to-underscore
replacement — before the strip to alphanumerics, underscore and hyphen; it
fails with the conflict error when the fully derived id is protected and
its file exists; otherwise it succeeds and the returned persona carries the
fully derived (possibly empty) id. -/
theorem c6_create_rules (files : List String) (dataId : String) :
    (preNormalizeId dataId = "" →
      createPersonality files dataId = .error "Personality ID is required") ∧
    (preNormalizeId dataId ≠ "" → deriveId dataId ∈ protectedIds →
      deriveId dataId ∈ files →
      createPersonality files dataId =
        .error ("Cannot overwrite default personality: " ++ deriveId dataId)) ∧
    (preNormalizeId dataId ≠ "" →
      ¬(deriveId dataId ∈ protectedIds ∧ deriveId dataId ∈ files) →
      ∃ fs, createPersonality files dataId = .ok (deriveId dataId, fs)) := by
  refine ⟨?_, ?_, ?_⟩
  · intro h
    simp [createPersonality, h]
  · intro h hp hf
    simp [createPersonality, h, hp, hf]
  · intro h hnot
    have hcond : (decide (deriveId dataId ∈ protectedIds) &&
        decide (deriveId dataId ∈ files)) = false := by
      rcases not_and_or.mp hnot with h1 | h1 <;> simp [h1]
    refine ⟨if deriveId dataId ∈ files then files
            else files ++ [deriveId dataId], ?_⟩
    simp [createPersonality, h, hcond]

/-- C6 (witness): creation of a fresh id succeeds with the normalized id;
creation over the existing protected id `default` raises the conflict
error. -/
theorem c6_witness :
    (∃ fs, createPersonality ["default"] "Shadow Bot" =
      .ok ("shadow_bot", fs)) ∧
    createPersonality ["default"] "Default" =
      .error ("Cannot overwrite default personality: " ++ "default") := by
  constructor
  · have h := (c6_create_rules ["default"] "Shadow Bot").2.2 (by decide)
      (by decide)
    simpa [show deriveId "Shadow Bot" = "shadow_bot" by decide] using h
  · have h := (c6_create_rules ["default"] "Default").2.1 (by decide)
      (by decide) (by decide)
    simpa [show deriveId "Default" = "default" by decide] using h

/-! ## Prompt-composer claims -/

lemma joinLines_data_cons (a : String) (l : List String) :
    ∃ t, (joinLines (a :: l)).data = a.data ++ t := by
  cases l with
  | nil => exact ⟨[], by simp [joinLines]⟩
  | cons b m =>
    refine ⟨'\n' :: (joinLines (b :: m)).data, ?_⟩
    simp only [joinLines, String.data_append, List.append_assoc]
    rfl

lemma joinLines_cons_beq_empty {a : String} (l : List String)
    (h : a.data ≠ []) : (joinLines (a :: l) == "") = false := by
  rw [beq_eq_false_iff_ne]
  intro hc
  obtain ⟨t, ht⟩ := joinLines_data_cons a l
  rw [hc] at ht
  exact h (List.append_eq_nil.mp ht.symm).1

lemma header_append_any_nonWhitespace (s : String) :
    ((absolutePriorityHeader ++ s).data.any fun c => !c.isWhitespace) =
      true := by
  rw [String.data_append, List.any_append]
  have h : (absolutePriorityHeader.data.any fun c => !c.isWhitespace) =
      true := by decide
  simp [h]

/-- For every truthy persona dict the built system prompt is present: the
hard-coded first part makes the joined string non-empty and
non-whitespace. -/
lemma buildSystemPrompt_some (p : Persona) (pl : Option String) :
    buildSystemPrompt (some p) pl =
      some (absolutePriorityHeader ++ joinLines (promptParts p pl)) := by
  obtain ⟨l, hl⟩ : ∃ l, promptParts p pl = criticalInstructions :: l :=
    ⟨_, rfl⟩
  simp only [buildSystemPrompt, hl]
  rw [joinLines_cons_beq_empty l (by decide)]
  simp only [Bool.false_eq_true, if_false, String.data_append,
    List.any_append, Bool.or_eq_true, List.any_eq_true]
  rw [if_pos (Or.inl ⟨'A', by decide, by decide⟩)]

/-- C3: for every supplied persona and context — system-role entries in the
context included — the composed message list is non-empty, starts with a
system message, contains exactly one system-role message, and ends with the
new user message; with no persona supplied, no system-role message is
present. -/
theorem c3_system_first_and_unique (p : Persona) (ctx : List Message)
    (msg : String) (pl : Option String) :
    composeMessages msg (some p) (some ctx) pl ≠ [] ∧
    (∃ s, (composeMessages msg (some p) (some ctx) pl).head? =
      some { role := "system", content := s }) ∧
    ((composeMessages msg (some p) (some ctx) pl).filter
      (fun m => m.role == "system")).length = 1 ∧
    (composeMessages msg (some p) (some ctx) pl).getLast? =
      some { role := "user", content := msg } ∧
    ∀ m ∈ composeMessages msg none (some ctx) pl, m.role ≠ "system" := by
  have hb := buildSystemPrompt_some p pl
  refine ⟨?_, ?_, ?_, ?_, ?_⟩
  · simp [composeMessages, hb]
  · exact ⟨absolutePriorityHeader ++ joinLines (promptParts p pl),
      by simp [composeMessages, hb]⟩
  · simp only [composeMessages, hb]
    simp [List.filter_append, List.filter_filter]
  · simp only [composeMessages, hb]
    exact List.getLast?_concat _
  · intro m hm
    simp only [composeMessages, buildSystemPrompt, List.nil_append,
      List.mem_append, List.mem_singleton] at hm
    rcases hm with hm | rfl
    · have := List.of_mem_filter hm
      simpa using this
    · simp

/-- A persona with a populated `examples.greeting`. -/
def pGreet : Persona :=
  { system_prompt := "You are Bob.", traits := [], language := none,
    region := "", cultural_context := none,
    examples := some { greeting := "Hello there!", response_style := "" } }

/-- C4 (counterexample): on the code, for a persona whose
`examples.greeting` is populated, the composed message list contains no
user/assistant few-shot exchange at all — with an empty context it is just
the system message and the new user message, and no element is a user
message `"hi"`: the greeting example is rendered inside the system prompt
instead. -/
theorem c4_counterexample :
    pGreet.examples =
      some { greeting := "Hello there!", response_style := "" } ∧
    (composeMessages "What" (some pGreet) (some []) none).length = 2 ∧
    ((composeMessages "What" (some pGreet) (some []) none).all
      fun m => !(m.role == "user" && m.content == "hi")) = true := by
  refine ⟨rfl, ?_, ?_⟩ <;> decide

/-- C4 (amended): for every persona with a populated `examples.greeting`,
the labeled clause `"Example greeting: " ++ greeting` is one of the system
prompt's parts, and the composed message list is exactly the system
message followed by the system-filtered context and the new user message —
no synthetic few-shot exchange is inserted. -/
theorem c4_examples_in_system_prompt (p : Persona) (ex : PersonaExamples)
    (pl : Option String) (msg : String) (ctx : List Message)
    (hex : p.examples = some ex) (hg : ex.greeting ≠ "") :
    ("Example greeting: " ++ ex.greeting) ∈ promptParts p pl ∧
    composeMessages msg (some p) (some ctx) pl =
      { role := "system",
        content := absolutePriorityHeader ++ joinLines (promptParts p pl) } ::
        (ctx.filter (fun m => !(m.role == "system")) ++
          [{ role := "user", content := msg }]) := by
  constructor
  · simp only [promptParts, hex]
    simp [List.mem_append, hg]
  · simp [composeMessages, buildSystemPrompt_some p pl]

/-- C4 (witness): the amended statement at the concrete persona `pGreet`
with an empty context. -/
theorem c4_witness :
    ("Example greeting: " ++ "Hello there!") ∈ promptParts pGreet none ∧
    composeMessages "What" (some pGreet) (some []) none =
      { role := "system",
        content :=
          absolutePriorityHeader ++ joinLines (promptParts pGreet none) } ::
        [{ role := "user", content := "What" }] := by
  have h := c4_examples_in_system_prompt pGreet
    { greeting := "Hello there!", response_style := "" } none "What" []
    rfl (by decide)
  simpa using h

end Personality
